import Mathlib

/-!
Shallow embedding of the VaultCraft transfer engine
(`app/services/transaction_service.py`, `app/services/wallet_service.py`,
`app/schemas/transaction.py`, `app/models/*.py`) and proofs about it.

Modelling conventions:
* Monetary amounts are exact decimals of scale 2 (`Numeric(12, 2)` columns,
  Python `Decimal`); they are embedded as `Int` numbers of cents.
* `uuid.uuid4()` draws are embedded as a fresh-id counter `nextId` carried in
  the database state; `datetime.utcnow()` / `func.now()` as a clock `now`
  that a separate `tick` step advances.
* Each service call is a function `DBState → args → DBState × Except ServiceError α`.
  Every `raise` in the Python source happens before any session mutation and is
  followed by `db.rollback()`, so an error branch returns the input state.
* `FastAPI`/Pydantic schema validation (`TransactionCreate`, `amount` with
  `gt=0`) runs before the service is entered; it is embedded as
  `validateTransactionCreate`, and `execute_transfer` is the composition the
  `/transactions/transfer` route performs.
-/

/-- `WalletType` from `app/models/wallet.py`. -/
inductive WalletType
  | PRIMARY
  | BONUS
  | SYSTEM
deriving DecidableEq

/-- `WalletStatus` from `app/models/wallet.py`. -/
inductive WalletStatus
  | ACTIVE
  | LOCKED
  | CLOSED
deriving DecidableEq

/-- `TransactionStatus` from `app/models/transaction.py`. -/
inductive TransactionStatus
  | PENDING
  | COMPLETED
  | FAILED
  | CANCELLED
deriving DecidableEq

/-- `TransactionType` from `app/models/transaction.py`. -/
inductive TransactionType
  | INTERNAL_TRANSFER
  | EXTERNAL_TRANSFER
  | DEPOSIT
  | WITHDRAWAL
deriving DecidableEq

/-- `EntryType` from `app/models/ledger_entry.py`. -/
inductive EntryType
  | DEBIT
  | CREDIT
deriving DecidableEq

/-- The `wallets` table row (`app/models/wallet.py`). -/
structure Wallet where
  id : Nat
  user_id : Nat
  org_id : Nat
  balance : Int
  currency : String
  type : WalletType
  status : WalletStatus
  created_at : Nat
deriving DecidableEq

/-- The `transactions` table row (`app/models/transaction.py`). -/
structure Transaction where
  id : Nat
  org_id : Nat
  sender_wallet_id : Nat
  receiver_wallet_id : Nat
  amount : Int
  status : TransactionStatus
  transaction_type : TransactionType
  reference_id : Option String
  description : Option String
  created_at : Nat
  completed_at : Option Nat
deriving DecidableEq

/-- The `ledger_entries` table row (`app/models/ledger_entry.py`). -/
structure LedgerEntry where
  id : Nat
  wallet_id : Nat
  transaction_id : Nat
  amount : Int
  type : EntryType
  created_at : Nat
deriving DecidableEq

/-- The committed database state, plus the fresh-id counter modelling
`uuid.uuid4()` and a clock modelling `func.now()`. -/
structure DBState where
  wallets : List Wallet
  transactions : List Transaction
  ledger_entries : List LedgerEntry
  nextId : Nat
  now : Nat
deriving DecidableEq

/-- Errors surfaced by the service layer: Pydantic validation errors from the
request schema, and `fastapi.HTTPException(status_code, detail)`. -/
inductive ServiceError
  | validationError (detail : String)
  | httpException (statusCode : Nat) (detail : String)
deriving DecidableEq

/-- Equality on `Except` values is decidable componentwise; core does not
provide this instance. -/
def exceptDecEq {ε α : Type} [DecidableEq ε] [DecidableEq α] :
    DecidableEq (Except ε α)
  | Except.ok x, Except.ok y =>
    if h : x = y then isTrue (congrArg Except.ok h)
    else isFalse (fun hh => h (Except.ok.inj hh))
  | Except.error x, Except.error y =>
    if h : x = y then isTrue (congrArg Except.error h)
    else isFalse (fun hh => h (Except.error.inj hh))
  | Except.ok _, Except.error _ => isFalse (fun hh => Except.noConfusion hh)
  | Except.error _, Except.ok _ => isFalse (fun hh => Except.noConfusion hh)

instance {ε α : Type} [DecidableEq ε] [DecidableEq α] :
    DecidableEq (Except ε α) := exceptDecEq

/-- The `TransactionCreate` request schema
(`app/schemas/transaction.py`): wallet ids, amount (`gt=0` checked by
`validateTransactionCreate` below, as Pydantic does), optional metadata. -/
structure TransactionCreate where
  sender_wallet_id : Nat
  receiver_wallet_id : Nat
  amount : Int
  description : Option String
  reference_id : Option String
  transaction_type : TransactionType
deriving DecidableEq

/-- Pydantic validation of `TransactionCreate`: the only constraint on the
body is `amount: Decimal = Field(..., gt=0)`.  There is no validator comparing
`sender_wallet_id` with `receiver_wallet_id` on this schema. -/
def validateTransactionCreate (raw : TransactionCreate) :
    Except ServiceError TransactionCreate :=
  if 0 < raw.amount then Except.ok raw
  else Except.error (ServiceError.validationError "Input should be greater than 0")

/-- `WalletService.get_wallet_by_id`: `select(Wallet).where(Wallet.id ==
wallet_id, Wallet.org_id == org_id)`, `scalar_one_or_none()`. -/
def get_wallet_by_id (s : DBState) (wallet_id org_id : Nat) : Option Wallet :=
  s.wallets.find? fun w => w.id == wallet_id && w.org_id == org_id

/-- One ORM balance mutation `wallet.balance += delta`, applied through the
session identity map: the stored row with the given primary key is updated. -/
def applyBalanceDelta (ws : List Wallet) (wallet_id : Nat) (delta : Int) :
    List Wallet :=
  ws.map fun w =>
    if w.id == wallet_id then { w with balance := w.balance + delta } else w

/-- `TransactionService.create_internal_transfer`.  Mirrors the source order:
fetch both wallets scoped to `org_id`; 404 if either is missing; 400 if either
is not ACTIVE; 400 if the sender balance is below the amount; otherwise add
the transaction (created PENDING, flipped to COMPLETED with `completed_at`
stamped inside the same unit, so the committed row is COMPLETED), the DEBIT
and CREDIT ledger entries, and both balance mutations, and commit.  There is
no check that the two wallet ids differ; when they coincide the session
identity map makes both names refer to the same row, so the two mutations
cancel.  Errors roll the session back, returning the input state. -/
def create_internal_transfer (s : DBState) (td : TransactionCreate)
    (org_id : Nat) : DBState × Except ServiceError Transaction :=
  match get_wallet_by_id s td.sender_wallet_id org_id,
        get_wallet_by_id s td.receiver_wallet_id org_id with
  | some sender_wallet, some receiver_wallet =>
    if sender_wallet.status ≠ WalletStatus.ACTIVE ∨
        receiver_wallet.status ≠ WalletStatus.ACTIVE then
      (s, Except.error
        (ServiceError.httpException 400 "One or both wallets are not active"))
    else if sender_wallet.balance < td.amount then
      (s, Except.error
        (ServiceError.httpException 400 "Insufficient balance in sender wallet"))
    else
      let txn : Transaction :=
        { id := s.nextId
          org_id := org_id
          sender_wallet_id := td.sender_wallet_id
          receiver_wallet_id := td.receiver_wallet_id
          amount := td.amount
          status := TransactionStatus.COMPLETED
          transaction_type := td.transaction_type
          reference_id := td.reference_id
          description := td.description
          created_at := s.now
          completed_at := some s.now }
      let debit_entry : LedgerEntry :=
        { id := s.nextId + 1
          wallet_id := td.sender_wallet_id
          transaction_id := s.nextId
          amount := -td.amount
          type := EntryType.DEBIT
          created_at := s.now }
      let credit_entry : LedgerEntry :=
        { id := s.nextId + 2
          wallet_id := td.receiver_wallet_id
          transaction_id := s.nextId
          amount := td.amount
          type := EntryType.CREDIT
          created_at := s.now }
      ({ s with
          wallets :=
            applyBalanceDelta
              (applyBalanceDelta s.wallets td.sender_wallet_id (-td.amount))
              td.receiver_wallet_id td.amount
          transactions := s.transactions ++ [txn]
          ledger_entries := s.ledger_entries ++ [debit_entry, credit_entry]
          nextId := s.nextId + 3 },
        Except.ok txn)
  | _, _ =>
      (s, Except.error
        (ServiceError.httpException 404 "One or both wallets not found"))

/-- The `POST /transactions/transfer` path: Pydantic validation of the
`TransactionCreate` body, then `create_internal_transfer`. -/
def execute_transfer (s : DBState) (raw : TransactionCreate) (org_id : Nat) :
    DBState × Except ServiceError Transaction :=
  match validateTransactionCreate raw with
  | Except.error e => (s, Except.error e)
  | Except.ok td => create_internal_transfer s td org_id

/-- `TransactionService.get_transaction_by_id`: select scoped to the
organization. -/
def get_transaction_by_id (s : DBState) (transaction_id org_id : Nat) :
    Option Transaction :=
  s.transactions.find? fun t => t.id == transaction_id && t.org_id == org_id

/-- `TransactionService.cancel_transaction`: 404 when the transaction is not
found in the organization, 400 unless its status is PENDING, otherwise the
status becomes CANCELLED; nothing else is touched. -/
def cancel_transaction (s : DBState) (transaction_id org_id : Nat) :
    DBState × Except ServiceError Transaction :=
  match get_transaction_by_id s transaction_id org_id with
  | none =>
      (s, Except.error (ServiceError.httpException 404 "Transaction not found"))
  | some t =>
    if t.status ≠ TransactionStatus.PENDING then
      (s, Except.error (ServiceError.httpException 400
        "Only pending transactions can be cancelled"))
    else
      ({ s with
          transactions := s.transactions.map fun u =>
            if u.id == transaction_id
            then { u with status := TransactionStatus.CANCELLED } else u },
        Except.ok { t with status := TransactionStatus.CANCELLED })

/-- The `TransactionFilter` query schema (`app/schemas/transaction.py`);
dates are embedded on the same clock as `created_at`. -/
structure TransactionFilter where
  status : Option TransactionStatus
  transaction_type : Option TransactionType
  start_date : Option Nat
  end_date : Option Nat
  wallet_id : Option Nat
  page : Nat
  page_size : Nat
deriving DecidableEq

/-- The conjunction of `where` clauses `get_transactions` builds: scoped to
the organization, then each optional filter, the wallet filter matching
sender or receiver. -/
def matchesFilters (org_id : Nat) (filters : TransactionFilter)
    (t : Transaction) : Bool :=
  t.org_id == org_id
    && (match filters.status with
        | none => true
        | some st => t.status == st)
    && (match filters.transaction_type with
        | none => true
        | some ty => t.transaction_type == ty)
    && (match filters.start_date with
        | none => true
        | some d => d ≤ t.created_at)
    && (match filters.end_date with
        | none => true
        | some d => t.created_at ≤ d)
    && (match filters.wallet_id with
        | none => true
        | some w => t.sender_wallet_id == w || t.receiver_wallet_id == w)

/-- The `order_by(Transaction.created_at.desc())` ordering relation.  The
source supplies no secondary sort key. -/
def createdDesc (a b : Transaction) : Prop := b.created_at ≤ a.created_at

instance : DecidableRel createdDesc := fun a b =>
  inferInstanceAs (Decidable (b.created_at ≤ a.created_at))

instance : IsTotal Transaction createdDesc :=
  ⟨fun a b => Nat.le_total b.created_at a.created_at⟩

instance : IsTrans Transaction createdDesc :=
  ⟨fun _ _ _ h1 h2 => Nat.le_trans h2 h1⟩

/-- `TransactionService.get_transactions`: filter, count the filtered set,
order by `created_at` descending (a stable sort models the SQL ordering: rows
with equal keys keep the storage order, since no tie-breaking key is given),
then paginate with `offset((page - 1) * page_size).limit(page_size)`. -/
def get_transactions (s : DBState) (org_id : Nat)
    (filters : TransactionFilter) : List Transaction × Nat :=
  let filtered := s.transactions.filter (matchesFilters org_id filters)
  let total := filtered.length
  let sorted := List.insertionSort createdDesc filtered
  (((sorted.drop ((filters.page - 1) * filters.page_size)).take
      filters.page_size), total)

/-- The `WalletCreate` request schema (`app/schemas/wallet.py`): only a name,
a wallet type and a currency — no balance and no status field. -/
structure WalletCreate where
  name : String
  type : WalletType
  currency : String
deriving DecidableEq

/-- `WalletService.create_wallet`: when a PRIMARY wallet is requested and the
user already has an ACTIVE PRIMARY wallet, reject with 400; otherwise insert
a wallet with `balance=Decimal("0.00")` and `status=WalletStatus.ACTIVE`.
(With two or more matching rows the source's `scalar_one_or_none()` raises
instead; either way the call errors and nothing is inserted, which is what
this branch models.) -/
def create_wallet (s : DBState) (user_id : Nat) (wallet_data : WalletCreate)
    (org_id : Nat) : DBState × Except ServiceError Wallet :=
  if wallet_data.type == WalletType.PRIMARY &&
      s.wallets.any (fun w => w.user_id == user_id
        && w.type == WalletType.PRIMARY
        && w.status == WalletStatus.ACTIVE) then
    (s, Except.error (ServiceError.httpException 400
      "User already has an active primary wallet"))
  else
    let wallet : Wallet :=
      { id := s.nextId
        user_id := user_id
        balance := 0
        currency := wallet_data.currency
        org_id := org_id
        type := wallet_data.type
        status := WalletStatus.ACTIVE
        created_at := s.now }
    ({ s with wallets := s.wallets ++ [wallet], nextId := s.nextId + 1 },
      Except.ok wallet)

/-- `WalletService.update_wallet_balance`: fetch by id alone (`scalar_one()`,
which raises when no row exists), then `wallet.balance += amount` and commit —
with no check on the resulting balance. -/
def update_wallet_balance (s : DBState) (wallet_id : Nat) (amount : Int) :
    DBState × Except ServiceError Unit :=
  match s.wallets.find? (fun w => w.id == wallet_id) with
  | none =>
      (s, Except.error (ServiceError.httpException 500 "NoResultFound"))
  | some _ =>
      ({ s with wallets := applyBalanceDelta s.wallets wallet_id amount },
        Except.ok ())

/-- Balance of the first stored wallet with the given id, as
`update_wallet_balance` would locate it. -/
def walletBalance (s : DBState) (wallet_id : Nat) : Option Int :=
  (s.wallets.find? fun w => w.id == wallet_id).map Wallet.balance

/-- Ledger entries referencing one transaction, within a given entry table
(`select(LedgerEntry).where(LedgerEntry.transaction_id == transaction_id)`). -/
def entriesForIn (es : List LedgerEntry) (transaction_id : Nat) :
    List LedgerEntry :=
  es.filter fun e => e.transaction_id == transaction_id

/-- Ledger entries of one transaction in the committed state. -/
def entriesFor (s : DBState) (transaction_id : Nat) : List LedgerEntry :=
  entriesForIn s.ledger_entries transaction_id

/-! ## Basic lemmas about the embedded operations -/

/-- A wallet fetched by `get_wallet_by_id` is a stored wallet with the
requested id and organization. -/
theorem get_wallet_by_id_some {s : DBState} {wallet_id org_id : Nat}
    {w : Wallet} (h : get_wallet_by_id s wallet_id org_id = some w) :
    w ∈ s.wallets ∧ w.id = wallet_id ∧ w.org_id = org_id := by
  have hmem := List.mem_of_find?_eq_some h
  have hp := List.find?_some h
  simp only [Bool.and_eq_true, beq_iff_eq] at hp
  exact ⟨hmem, hp.1, hp.2⟩

/-- `get_wallet_by_id` answers `none` exactly when no stored wallet has the
requested id within the requested organization: a wallet of another
organization counts as nonexistent. -/
theorem get_wallet_by_id_eq_none_iff (s : DBState) (wallet_id org_id : Nat) :
    get_wallet_by_id s wallet_id org_id = none ↔
      ∀ w ∈ s.wallets, ¬ (w.id = wallet_id ∧ w.org_id = org_id) := by
  simp [get_wallet_by_id, List.find?_eq_none]

/-- Unfolding `applyBalanceDelta` over a cons cell. -/
theorem applyBalanceDelta_cons (a : Wallet) (l : List Wallet)
    (wallet_id : Nat) (delta : Int) :
    applyBalanceDelta (a :: l) wallet_id delta =
      (if a.id == wallet_id then { a with balance := a.balance + delta }
       else a) :: applyBalanceDelta l wallet_id delta := rfl

/-- `applyBalanceDelta` leaves every wallet id in place. -/
theorem applyBalanceDelta_map_id (ws : List Wallet) (wallet_id : Nat)
    (delta : Int) :
    (applyBalanceDelta ws wallet_id delta).map Wallet.id = ws.map Wallet.id := by
  induction ws with
  | nil => rfl
  | cons a l ih =>
    rw [applyBalanceDelta_cons, List.map_cons, List.map_cons, ih]
    by_cases h : a.id = wallet_id
    · rw [if_pos (by simpa using h)]
    · rw [if_neg (by simpa using h)]

/-- Locating the mutated wallet after `applyBalanceDelta`: the first wallet
with the mutated id has its balance shifted by the delta. -/
theorem find?_applyBalanceDelta_self (ws : List Wallet) (wallet_id : Nat)
    (delta : Int) :
    (applyBalanceDelta ws wallet_id delta).find? (fun w => w.id == wallet_id) =
      (ws.find? (fun w => w.id == wallet_id)).map
        (fun w => { w with balance := w.balance + delta }) := by
  induction ws with
  | nil => rfl
  | cons a l ih =>
    rw [applyBalanceDelta_cons]
    by_cases h : a.id = wallet_id
    · rw [if_pos (by simpa using h),
        List.find?_cons_of_pos _ (by simpa using h),
        List.find?_cons_of_pos _ (by simpa using h)]
      rfl
    · rw [if_neg (by simpa using h),
        List.find?_cons_of_neg _ (by simpa using h),
        List.find?_cons_of_neg _ (by simpa using h)]
      exact ih

/-- Wallets with a different id are untouched by `applyBalanceDelta`. -/
theorem find?_applyBalanceDelta_other (ws : List Wallet)
    {wallet_id other_id : Nat} (delta : Int) (h : other_id ≠ wallet_id) :
    (applyBalanceDelta ws wallet_id delta).find? (fun w => w.id == other_id) =
      ws.find? (fun w => w.id == other_id) := by
  induction ws with
  | nil => rfl
  | cons a l ih =>
    rw [applyBalanceDelta_cons]
    by_cases ha : a.id = wallet_id
    · have hne : ¬ a.id = other_id := fun hc => h (hc ▸ ha)
      rw [if_pos (by simpa using ha),
        List.find?_cons_of_neg _ (by simpa using hne),
        List.find?_cons_of_neg _ (by simpa using hne)]
      exact ih
    · rw [if_neg (by simpa using ha)]
      by_cases hb : a.id = other_id
      · rw [List.find?_cons_of_pos _ (by simpa using hb),
          List.find?_cons_of_pos _ (by simpa using hb)]
      · rw [List.find?_cons_of_neg _ (by simpa using hb),
          List.find?_cons_of_neg _ (by simpa using hb)]
        exact ih

/-- In a wallet table with no duplicate ids, two stored wallets with the same
id are the same row. -/
theorem wallet_eq_of_ids_nodup {ws : List Wallet}
    (hnd : (ws.map Wallet.id).Nodup) {w w' : Wallet}
    (hw : w ∈ ws) (hw' : w' ∈ ws) (h : w.id = w'.id) : w = w' := by
  induction ws with
  | nil => cases hw
  | cons a l ih =>
    simp only [List.map_cons, List.nodup_cons] at hnd
    rcases List.mem_cons.mp hw with rfl | hw2 <;>
      rcases List.mem_cons.mp hw' with rfl | hw2'
    · rfl
    · exact absurd (h ▸ List.mem_map_of_mem Wallet.id hw2') hnd.1
    · exact absurd (h ▸ List.mem_map_of_mem Wallet.id hw2) hnd.1
    · exact ih hnd.2 hw2 hw2'

/-- Splitting a transaction's ledger entries across an append. -/
theorem entriesForIn_append (es es' : List LedgerEntry)
    (transaction_id : Nat) :
    entriesForIn (es ++ es') transaction_id =
      entriesForIn es transaction_id ++ entriesForIn es' transaction_id := by
  simp [entriesForIn, List.filter_append]

/-- Entries all referencing transactions below a bound contribute nothing for
a transaction id at or above it. -/
theorem entriesForIn_eq_nil_of_lt (es : List LedgerEntry) (bound : Nat)
    (hb : ∀ e ∈ es, e.transaction_id < bound) :
    entriesForIn es bound = [] := by
  refine List.filter_eq_nil_iff.mpr ?_
  intro e he
  have := hb e he
  simp only [beq_iff_eq]
  omega


/-! ## Characterization of `create_internal_transfer` -/

/-- The transaction row committed by a successful transfer. -/
def transferTxn (s : DBState) (td : TransactionCreate) (org_id : Nat) :
    Transaction :=
  { id := s.nextId
    org_id := org_id
    sender_wallet_id := td.sender_wallet_id
    receiver_wallet_id := td.receiver_wallet_id
    amount := td.amount
    status := TransactionStatus.COMPLETED
    transaction_type := td.transaction_type
    reference_id := td.reference_id
    description := td.description
    created_at := s.now
    completed_at := some s.now }

/-- The DEBIT ledger entry committed by a successful transfer. -/
def transferDebit (s : DBState) (td : TransactionCreate) : LedgerEntry :=
  { id := s.nextId + 1
    wallet_id := td.sender_wallet_id
    transaction_id := s.nextId
    amount := -td.amount
    type := EntryType.DEBIT
    created_at := s.now }

/-- The CREDIT ledger entry committed by a successful transfer. -/
def transferCredit (s : DBState) (td : TransactionCreate) : LedgerEntry :=
  { id := s.nextId + 2
    wallet_id := td.receiver_wallet_id
    transaction_id := s.nextId
    amount := td.amount
    type := EntryType.CREDIT
    created_at := s.now }

/-- The state committed by a successful transfer. -/
def transferState (s : DBState) (td : TransactionCreate) (org_id : Nat) :
    DBState :=
  { s with
      wallets :=
        applyBalanceDelta
          (applyBalanceDelta s.wallets td.sender_wallet_id (-td.amount))
          td.receiver_wallet_id td.amount
      transactions := s.transactions ++ [transferTxn s td org_id]
      ledger_entries :=
        s.ledger_entries ++ [transferDebit s td, transferCredit s td]
      nextId := s.nextId + 3 }

/-- Missing wallet (or wallet of another organization): rejected 404, state
untouched. -/
theorem create_internal_transfer_missing (s : DBState)
    (td : TransactionCreate) (org_id : Nat)
    (h : get_wallet_by_id s td.sender_wallet_id org_id = none ∨
      get_wallet_by_id s td.receiver_wallet_id org_id = none) :
    create_internal_transfer s td org_id =
      (s, Except.error
        (ServiceError.httpException 404 "One or both wallets not found")) := by
  unfold create_internal_transfer
  rcases h with h | h
  · rw [h]
  · rw [h]
    rcases get_wallet_by_id s td.sender_wallet_id org_id with _ | sw <;> rfl

/-- Either wallet not ACTIVE: rejected 400, state untouched. -/
theorem create_internal_transfer_inactive (s : DBState)
    (td : TransactionCreate) (org_id : Nat) {sw rw_ : Wallet}
    (hS : get_wallet_by_id s td.sender_wallet_id org_id = some sw)
    (hR : get_wallet_by_id s td.receiver_wallet_id org_id = some rw_)
    (h : sw.status ≠ WalletStatus.ACTIVE ∨ rw_.status ≠ WalletStatus.ACTIVE) :
    create_internal_transfer s td org_id =
      (s, Except.error
        (ServiceError.httpException 400 "One or both wallets are not active")) := by
  unfold create_internal_transfer
  rw [hS, hR]
  simp only [if_pos h]

/-- Sender balance below the amount: rejected 400, state untouched. -/
theorem create_internal_transfer_insufficient (s : DBState)
    (td : TransactionCreate) (org_id : Nat) {sw rw_ : Wallet}
    (hS : get_wallet_by_id s td.sender_wallet_id org_id = some sw)
    (hR : get_wallet_by_id s td.receiver_wallet_id org_id = some rw_)
    (hsA : sw.status = WalletStatus.ACTIVE)
    (hrA : rw_.status = WalletStatus.ACTIVE)
    (h : sw.balance < td.amount) :
    create_internal_transfer s td org_id =
      (s, Except.error (ServiceError.httpException 400
        "Insufficient balance in sender wallet")) := by
  unfold create_internal_transfer
  rw [hS, hR]
  dsimp only
  rw [if_neg (by push_neg; exact ⟨hsA, hrA⟩), if_pos h]

/-- All preconditions met: the success state and transaction are committed. -/
theorem create_internal_transfer_success (s : DBState)
    (td : TransactionCreate) (org_id : Nat) {sw rw_ : Wallet}
    (hS : get_wallet_by_id s td.sender_wallet_id org_id = some sw)
    (hR : get_wallet_by_id s td.receiver_wallet_id org_id = some rw_)
    (hsA : sw.status = WalletStatus.ACTIVE)
    (hrA : rw_.status = WalletStatus.ACTIVE)
    (h : td.amount ≤ sw.balance) :
    create_internal_transfer s td org_id =
      (transferState s td org_id, Except.ok (transferTxn s td org_id)) := by
  unfold create_internal_transfer
  rw [hS, hR]
  dsimp only
  rw [if_neg (by push_neg; exact ⟨hsA, hrA⟩), if_neg (not_lt.mpr h)]
  rfl

/-- Any error from `create_internal_transfer` leaves the state untouched. -/
theorem create_internal_transfer_error_state (s : DBState)
    (td : TransactionCreate) (org_id : Nat) {e : ServiceError}
    (h : (create_internal_transfer s td org_id).2 = Except.error e) :
    (create_internal_transfer s td org_id).1 = s := by
  rcases hS : get_wallet_by_id s td.sender_wallet_id org_id with _ | sw
  · rw [create_internal_transfer_missing s td org_id (Or.inl hS)]
  · rcases hR : get_wallet_by_id s td.receiver_wallet_id org_id with _ | rw_
    · rw [create_internal_transfer_missing s td org_id (Or.inr hR)]
    · by_cases hact : sw.status ≠ WalletStatus.ACTIVE ∨
        rw_.status ≠ WalletStatus.ACTIVE
      · rw [create_internal_transfer_inactive s td org_id hS hR hact]
      · push_neg at hact
        by_cases hbal : sw.balance < td.amount
        · rw [create_internal_transfer_insufficient s td org_id hS hR
            hact.1 hact.2 hbal]
        · rw [create_internal_transfer_success s td org_id hS hR
            hact.1 hact.2 (not_lt.mp hbal)] at h ⊢
          cases h

/-- A successful `create_internal_transfer` is exactly the success branch:
both wallets were found and ACTIVE, the sender balance covered the amount,
and the committed state and returned transaction have the success shape. -/
theorem create_internal_transfer_ok_elim (s : DBState)
    (td : TransactionCreate) (org_id : Nat) {t : Transaction}
    (h : (create_internal_transfer s td org_id).2 = Except.ok t) :
    ∃ sw rw_ : Wallet,
      get_wallet_by_id s td.sender_wallet_id org_id = some sw ∧
      get_wallet_by_id s td.receiver_wallet_id org_id = some rw_ ∧
      sw.status = WalletStatus.ACTIVE ∧ rw_.status = WalletStatus.ACTIVE ∧
      td.amount ≤ sw.balance ∧
      create_internal_transfer s td org_id =
        (transferState s td org_id, Except.ok (transferTxn s td org_id)) ∧
      t = transferTxn s td org_id := by
  rcases hS : get_wallet_by_id s td.sender_wallet_id org_id with _ | sw
  · rw [create_internal_transfer_missing s td org_id (Or.inl hS)] at h
    cases h
  · rcases hR : get_wallet_by_id s td.receiver_wallet_id org_id with _ | rw_
    · rw [create_internal_transfer_missing s td org_id (Or.inr hR)] at h
      cases h
    · by_cases hact : sw.status ≠ WalletStatus.ACTIVE ∨
        rw_.status ≠ WalletStatus.ACTIVE
      · rw [create_internal_transfer_inactive s td org_id hS hR hact] at h
        cases h
      · push_neg at hact
        by_cases hbal : sw.balance < td.amount
        · rw [create_internal_transfer_insufficient s td org_id hS hR
            hact.1 hact.2 hbal] at h
          cases h
        · have hok := create_internal_transfer_success s td org_id hS hR
            hact.1 hact.2 (not_lt.mp hbal)
          rw [hok] at h
          exact ⟨sw, rw_, rfl, rfl, hact.1, hact.2, not_lt.mp hbal, hok,
            (Except.ok.inj h).symm⟩

/-- Nonpositive amounts fail Pydantic validation before the service runs. -/
theorem execute_transfer_nonpos (s : DBState) (raw : TransactionCreate)
    (org_id : Nat) (h : raw.amount ≤ 0) :
    execute_transfer s raw org_id =
      (s, Except.error
        (ServiceError.validationError "Input should be greater than 0")) := by
  unfold execute_transfer validateTransactionCreate
  rw [if_neg (not_lt.mpr h)]

/-- Positive amounts pass validation unchanged; `execute_transfer` is then
the service call itself.  In particular no same-wallet check happens at the
validation layer. -/
theorem execute_transfer_pos (s : DBState) (raw : TransactionCreate)
    (org_id : Nat) (h : 0 < raw.amount) :
    execute_transfer s raw org_id = create_internal_transfer s raw org_id := by
  unfold execute_transfer validateTransactionCreate
  rw [if_pos h]

/-- Any error from the transfer path leaves the state untouched. -/
theorem execute_transfer_error_state (s : DBState) (raw : TransactionCreate)
    (org_id : Nat) {e : ServiceError}
    (h : (execute_transfer s raw org_id).2 = Except.error e) :
    (execute_transfer s raw org_id).1 = s := by
  by_cases hpos : 0 < raw.amount
  · rw [execute_transfer_pos s raw org_id hpos] at h ⊢
    exact create_internal_transfer_error_state s raw org_id h
  · rw [execute_transfer_nonpos s raw org_id (not_lt.mp hpos)]

/-- A successful `execute_transfer` had a positive amount and is the
successful service call. -/
theorem execute_transfer_ok_elim (s : DBState) (raw : TransactionCreate)
    (org_id : Nat) {t : Transaction}
    (h : (execute_transfer s raw org_id).2 = Except.ok t) :
    0 < raw.amount ∧
      execute_transfer s raw org_id = create_internal_transfer s raw org_id := by
  by_cases hpos : 0 < raw.amount
  · exact ⟨hpos, execute_transfer_pos s raw org_id hpos⟩
  · rw [execute_transfer_nonpos s raw org_id (not_lt.mp hpos)] at h
    cases h

/-! ## Concrete fixtures for counterexamples and witnesses -/

/-- Whether an `Except` result is a success. -/
def exceptIsOk {ε α : Type} : Except ε α → Bool
  | Except.ok _ => true
  | Except.error _ => false

/-- An ACTIVE PRIMARY wallet of organization 7 holding 100.00. -/
def wA : Wallet :=
  ⟨1, 11, 7, 10000, "INR", WalletType.PRIMARY, WalletStatus.ACTIVE, 0⟩

/-- An ACTIVE PRIMARY wallet of organization 7 holding 0.00. -/
def wB : Wallet :=
  ⟨2, 12, 7, 0, "INR", WalletType.PRIMARY, WalletStatus.ACTIVE, 0⟩

/-- A two-wallet state of organization 7. -/
def sAB : DBState := ⟨[wA, wB], [], [], 10, 5⟩

/-- The empty database. -/
def sEmpty : DBState := ⟨[], [], [], 0, 0⟩

/-- A same-wallet transfer request for 50.00. -/
def tdSelf : TransactionCreate :=
  ⟨1, 1, 5000, none, none, TransactionType.INTERNAL_TRANSFER⟩

/-- A transfer request of 50.00 from wallet 1 to wallet 2. -/
def tdAB : TransactionCreate :=
  ⟨1, 2, 5000, none, none, TransactionType.INTERNAL_TRANSFER⟩

/-- A zero-amount transfer request. -/
def tdZero : TransactionCreate :=
  ⟨1, 2, 0, none, none, TransactionType.INTERNAL_TRANSFER⟩

/-- A transfer request of 200.00, exceeding wallet 1's balance. -/
def tdBig : TransactionCreate :=
  ⟨1, 2, 20000, none, none, TransactionType.INTERNAL_TRANSFER⟩

/-- The transaction committed by `execute_transfer sAB tdAB 7`. -/
def txnAB : Transaction :=
  ⟨10, 7, 1, 2, 5000, TransactionStatus.COMPLETED,
    TransactionType.INTERNAL_TRANSFER, none, none, 5, some 5⟩

/-- The state committed by `execute_transfer sAB tdAB 7`. -/
def sABdone : DBState :=
  ⟨[{ wA with balance := 5000 }, { wB with balance := 5000 }], [txnAB],
    [⟨11, 1, 10, -5000, EntryType.DEBIT, 5⟩,
     ⟨12, 2, 10, 5000, EntryType.CREDIT, 5⟩], 13, 5⟩

/-! ## C1 — validation layer -/

/-- C1 counterexample: the claim states that a request with
`sender_wallet_id == receiver_wallet_id` fails with a `ValidationError`
before any storage write.  Neither the `TransactionCreate` schema nor
`create_internal_transfer` checks this: a same-wallet request with a
positive amount within the ACTIVE wallet's balance completes, writing one
transaction row and two ledger entries. -/
theorem claim_c1_counterexample :
    tdSelf.sender_wallet_id = tdSelf.receiver_wallet_id ∧
    0 < tdSelf.amount ∧
    exceptIsOk (execute_transfer sAB tdSelf 7).2 = true ∧
    (execute_transfer sAB tdSelf 7).1.transactions.length = 1 ∧
    (execute_transfer sAB tdSelf 7).1.ledger_entries.length = 2 := by
  decide

/-- C1 (amended): a request whose amount is not strictly positive is rejected
by schema validation with a `ValidationError` before the service touches
storage, leaving the state unchanged; a request with positive amount passes
validation unchanged — in particular a same-wallet request is not rejected at
this layer, and `create_internal_transfer` performs no same-wallet check
either. -/
theorem claim_c1_amended (s : DBState) (raw : TransactionCreate)
    (org_id : Nat) :
    (raw.amount ≤ 0 →
      execute_transfer s raw org_id =
        (s, Except.error
          (ServiceError.validationError "Input should be greater than 0"))) ∧
    (0 < raw.amount →
      execute_transfer s raw org_id = create_internal_transfer s raw org_id) :=
  ⟨execute_transfer_nonpos s raw org_id, execute_transfer_pos s raw org_id⟩

/-- C1 witness: the amended claim applied to a concrete zero-amount
request. -/
theorem claim_c1_witness :
    execute_transfer sAB tdZero 7 =
      (sAB, Except.error
        (ServiceError.validationError "Input should be greater than 0")) :=
  (claim_c1_amended sAB tdZero 7).1 (by decide)

/-! ## C4 — rollback on any error -/

/-- C4: whenever the transfer path surfaces an error — a validation failure
or any failed precondition inside the unit — the entire state is unchanged:
no wallet balance, no ledger entry, and no transaction row in any status
(in particular no PENDING row) persists from the failed attempt. -/
theorem claim_c4_rollback (s : DBState) (raw : TransactionCreate)
    (org_id : Nat) (e : ServiceError)
    (h : (execute_transfer s raw org_id).2 = Except.error e) :
    (execute_transfer s raw org_id).1 = s :=
  execute_transfer_error_state s raw org_id h

/-- C4 witness: a concrete failing transfer (no wallets exist) leaves the
empty database untouched. -/
theorem claim_c4_witness : (execute_transfer sEmpty tdAB 7).1 = sEmpty :=
  claim_c4_rollback sEmpty tdAB 7
    (ServiceError.httpException 404 "One or both wallets not found")
    (by decide)

/-! ## C2 — balance movement of a completed transfer -/

/-- C2 counterexample: the claim states every successfully completed transfer
decreases the sender's balance by the amount.  A same-wallet transfer
completes successfully (no same-wallet check exists) and leaves the balance
unchanged, because both balance mutations hit the same row. -/
theorem claim_c2_counterexample :
    exceptIsOk (execute_transfer sAB tdSelf 7).2 = true ∧
    walletBalance sAB tdSelf.sender_wallet_id = some 10000 ∧
    walletBalance (execute_transfer sAB tdSelf 7).1 tdSelf.sender_wallet_id =
      some 10000 ∧
    ¬ walletBalance (execute_transfer sAB tdSelf 7).1 tdSelf.sender_wallet_id =
        some (10000 - tdSelf.amount) := by
  decide

/-- C2 (amended): a successfully completed transfer between two distinct
wallets debits the sender by exactly the amount, credits the receiver by
exactly the amount, and returns a COMPLETED transaction with `completed_at`
stamped; a same-wallet transfer can also complete (status COMPLETED,
`completed_at` stamped) but leaves the wallet balance unchanged. -/
theorem claim_c2_amended (s : DBState) (raw : TransactionCreate)
    (org_id : Nat) (s' : DBState) (t : Transaction)
    (h : execute_transfer s raw org_id = (s', Except.ok t))
    (hne : raw.sender_wallet_id ≠ raw.receiver_wallet_id) :
    t.amount = raw.amount ∧
    walletBalance s' raw.sender_wallet_id =
      (walletBalance s raw.sender_wallet_id).map (fun b => b - raw.amount) ∧
    walletBalance s' raw.receiver_wallet_id =
      (walletBalance s raw.receiver_wallet_id).map (fun b => b + raw.amount) ∧
    t.status = TransactionStatus.COMPLETED ∧
    t.completed_at = some s.now := by
  have h2 : (execute_transfer s raw org_id).2 = Except.ok t := by rw [h]
  obtain ⟨hpos, heq⟩ := execute_transfer_ok_elim s raw org_id h2
  rw [heq] at h
  have h2' : (create_internal_transfer s raw org_id).2 = Except.ok t := by
    rw [h]
  obtain ⟨sw, rw_, hS, hR, hsA, hrA, hbal, hok, ht⟩ :=
    create_internal_transfer_ok_elim s raw org_id h2'
  rw [hok] at h
  injection h with h1 h2''
  injection h2'' with h3
  subst h1
  subst h3
  refine ⟨rfl, ?_, ?_, rfl, rfl⟩
  · show walletBalance (transferState s raw org_id) raw.sender_wallet_id = _
    unfold walletBalance transferState
    dsimp only
    rw [find?_applyBalanceDelta_other _ raw.amount hne,
      find?_applyBalanceDelta_self]
    cases s.wallets.find? (fun w => w.id == raw.sender_wallet_id) with
    | none => rfl
    | some w => simp [sub_eq_add_neg]
  · show walletBalance (transferState s raw org_id) raw.receiver_wallet_id = _
    unfold walletBalance transferState
    dsimp only
    rw [find?_applyBalanceDelta_self,
      find?_applyBalanceDelta_other _ (-raw.amount) (Ne.symm hne)]
    cases s.wallets.find? (fun w => w.id == raw.receiver_wallet_id) with
    | none => rfl
    | some w => simp

/-- C2 witness: the amended claim applied to the concrete transfer of 50.00
from wallet 1 (balance 100.00) to wallet 2 (balance 0.00). -/
theorem claim_c2_witness :
    txnAB.amount = tdAB.amount ∧
    walletBalance sABdone tdAB.sender_wallet_id =
      (walletBalance sAB tdAB.sender_wallet_id).map (fun b => b - tdAB.amount) ∧
    walletBalance sABdone tdAB.receiver_wallet_id =
      (walletBalance sAB tdAB.receiver_wallet_id).map (fun b => b + tdAB.amount) ∧
    txnAB.status = TransactionStatus.COMPLETED ∧
    txnAB.completed_at = some sAB.now :=
  claim_c2_amended sAB tdAB 7 sABdone txnAB (by decide) (by decide)

/-! ## C5 — precondition order and distinct errors -/

/-- C5: for a request with distinct wallet ids and positive amount, the
service checks the remaining preconditions in order with distinct errors:
wallet existence scoped to the organization first (a wallet of another
organization counts as nonexistent), then ACTIVE status of both wallets,
then sufficiency of the sender balance — failing with the insufficient-funds
error exactly when the balance is strictly below the amount, so a transfer
of exactly the full balance succeeds. -/
theorem claim_c5_check_order (s : DBState) (td : TransactionCreate)
    (org_id : Nat) (hne : td.sender_wallet_id ≠ td.receiver_wallet_id)
    (hpos : 0 < td.amount) :
    (get_wallet_by_id s td.sender_wallet_id org_id = none ↔
      ∀ w ∈ s.wallets, ¬ (w.id = td.sender_wallet_id ∧ w.org_id = org_id)) ∧
    ((get_wallet_by_id s td.sender_wallet_id org_id = none ∨
      get_wallet_by_id s td.receiver_wallet_id org_id = none) →
      create_internal_transfer s td org_id =
        (s, Except.error
          (ServiceError.httpException 404 "One or both wallets not found"))) ∧
    (∀ sw rw_ : Wallet,
      get_wallet_by_id s td.sender_wallet_id org_id = some sw →
      get_wallet_by_id s td.receiver_wallet_id org_id = some rw_ →
      (sw.status ≠ WalletStatus.ACTIVE ∨ rw_.status ≠ WalletStatus.ACTIVE) →
      create_internal_transfer s td org_id =
        (s, Except.error (ServiceError.httpException 400
          "One or both wallets are not active"))) ∧
    (∀ sw rw_ : Wallet,
      get_wallet_by_id s td.sender_wallet_id org_id = some sw →
      get_wallet_by_id s td.receiver_wallet_id org_id = some rw_ →
      sw.status = WalletStatus.ACTIVE → rw_.status = WalletStatus.ACTIVE →
      ((create_internal_transfer s td org_id =
          (s, Except.error (ServiceError.httpException 400
            "Insufficient balance in sender wallet")) ↔
        sw.balance < td.amount) ∧
       (exceptIsOk (create_internal_transfer s td org_id).2 = true ↔
        td.amount ≤ sw.balance))) := by
  refine ⟨get_wallet_by_id_eq_none_iff s td.sender_wallet_id org_id,
    create_internal_transfer_missing s td org_id,
    fun sw rw_ hS hR h => create_internal_transfer_inactive s td org_id hS hR h,
    fun sw rw_ hS hR hsA hrA => ?_⟩
  by_cases hbal : sw.balance < td.amount
  · have hres := create_internal_transfer_insufficient s td org_id hS hR
      hsA hrA hbal
    refine ⟨⟨fun _ => hbal, fun _ => hres⟩, ?_, ?_⟩
    · intro hok
      rw [hres] at hok
      cases hok
    · intro hge
      exact absurd hbal (not_lt.mpr hge)
  · have hge := not_lt.mp hbal
    have hres := create_internal_transfer_success s td org_id hS hR
      hsA hrA hge
    refine ⟨⟨?_, fun hlt => absurd hlt hbal⟩, fun _ => hge, fun _ => ?_⟩
    · intro heq
      rw [hres] at heq
      injection heq with h1 h2
      cases h2
    · rw [hres]
      rfl

/-- C5 witness: the insufficient-funds branch at a concrete state where the
requested 200.00 exceeds wallet 1's 100.00 balance. -/
theorem claim_c5_witness :
    create_internal_transfer sAB tdBig 7 =
      (sAB, Except.error (ServiceError.httpException 400
        "Insufficient balance in sender wallet")) := by
  have h := claim_c5_check_order sAB tdBig 7 (by decide) (by decide)
  exact ((h.2.2.2 wA wB (by decide) (by decide) (by decide) (by decide)).1).mpr
    (by decide)

/-! ## C10 — wallets are born empty and ACTIVE -/

/-- The BONUS-wallet creation request used in the C10 witness. -/
def wdBonus : WalletCreate := ⟨"travel", WalletType.BONUS, "INR"⟩

/-- The wallet created by `create_wallet sAB 11 wdBonus 7`. -/
def wNew : Wallet :=
  ⟨10, 11, 7, 0, "INR", WalletType.BONUS, WalletStatus.ACTIVE, 5⟩

/-- The state after `create_wallet sAB 11 wdBonus 7`. -/
def sABplus : DBState := ⟨[wA, wB, wNew], [], [], 11, 5⟩

/-- C10: every wallet returned by `create_wallet` has balance exactly 0.00
and status ACTIVE, whatever type and currency were requested; the
`WalletCreate` schema exposes no balance or status field, so a caller cannot
choose either. -/
theorem claim_c10_new_wallet (s : DBState) (user_id : Nat)
    (wd : WalletCreate) (org_id : Nat) (s' : DBState) (w : Wallet)
    (h : create_wallet s user_id wd org_id = (s', Except.ok w)) :
    w.balance = 0 ∧ w.status = WalletStatus.ACTIVE ∧
    w.type = wd.type ∧ w.currency = wd.currency := by
  unfold create_wallet at h
  split_ifs at h with hcond
  · injection h with h1 h2
    cases h2
  · dsimp only at h
    injection h with h1 h2
    injection h2 with h3
    subst h3
    exact ⟨rfl, rfl, rfl, rfl⟩

/-- C10 witness: the concrete BONUS wallet created in organization 7 for
user 11 is empty and ACTIVE. -/
theorem claim_c10_witness :
    wNew.balance = 0 ∧ wNew.status = WalletStatus.ACTIVE ∧
    wNew.type = wdBonus.type ∧ wNew.currency = wdBonus.currency :=
  claim_c10_new_wallet sAB 11 wdBonus 7 sABplus wNew (by decide)

/-! ## C6 — cancellation -/

/-- C6: `cancel_transaction` answers 404 when no transaction with the id
exists in the organization; answers a state-conflict 400 and changes nothing
when the status is not PENDING (COMPLETED, CANCELLED or FAILED); and for a
PENDING transaction flips only the status to CANCELLED, touching no wallet
balance and no ledger entry. -/
theorem claim_c6_cancel (s : DBState) (transaction_id org_id : Nat) :
    (get_transaction_by_id s transaction_id org_id = none →
      cancel_transaction s transaction_id org_id =
        (s, Except.error
          (ServiceError.httpException 404 "Transaction not found"))) ∧
    (∀ t : Transaction,
      get_transaction_by_id s transaction_id org_id = some t →
      t.status ≠ TransactionStatus.PENDING →
      cancel_transaction s transaction_id org_id =
        (s, Except.error (ServiceError.httpException 400
          "Only pending transactions can be cancelled"))) ∧
    (∀ t : Transaction,
      get_transaction_by_id s transaction_id org_id = some t →
      t.status = TransactionStatus.PENDING →
      (cancel_transaction s transaction_id org_id).2 =
        Except.ok { t with status := TransactionStatus.CANCELLED } ∧
      (cancel_transaction s transaction_id org_id).1.wallets = s.wallets ∧
      (cancel_transaction s transaction_id org_id).1.ledger_entries =
        s.ledger_entries ∧
      (cancel_transaction s transaction_id org_id).1.transactions =
        s.transactions.map (fun u =>
          if u.id == transaction_id
          then { u with status := TransactionStatus.CANCELLED } else u)) := by
  refine ⟨?_, ?_, ?_⟩
  · intro h
    unfold cancel_transaction
    rw [h]
  · intro t ht hst
    unfold cancel_transaction
    rw [ht]
    dsimp only
    rw [if_pos hst]
  · intro t ht hst
    unfold cancel_transaction
    rw [ht]
    dsimp only
    rw [if_neg (not_ne_iff.mpr hst)]
    exact ⟨rfl, rfl, rfl, rfl⟩

/-- A PENDING transaction row (as the cancel path expects to find). -/
def txnPend : Transaction :=
  ⟨20, 7, 1, 2, 5000, TransactionStatus.PENDING,
    TransactionType.INTERNAL_TRANSFER, none, none, 3, none⟩

/-- A state holding one PENDING transaction. -/
def sPend : DBState := ⟨[wA, wB], [txnPend], [], 21, 6⟩

/-- C6 witness: cancelling the concrete PENDING transaction flips only its
status. -/
theorem claim_c6_witness :
    (cancel_transaction sPend 20 7).2 =
      Except.ok { txnPend with status := TransactionStatus.CANCELLED } ∧
    (cancel_transaction sPend 20 7).1.wallets = sPend.wallets ∧
    (cancel_transaction sPend 20 7).1.ledger_entries = sPend.ledger_entries ∧
    (cancel_transaction sPend 20 7).1.transactions =
      sPend.transactions.map (fun u =>
        if u.id == 20
        then { u with status := TransactionStatus.CANCELLED } else u) :=
  (claim_c6_cancel sPend 20 7).2.2 txnPend (by decide) (by decide)

/-! ## C9 — at most one ACTIVE PRIMARY wallet per user -/

/-- No two stored wallets are both PRIMARY, both ACTIVE and owned by the
same user. -/
def AtMostOneActivePrimary (s : DBState) : Prop :=
  s.wallets.Pairwise fun w1 w2 =>
    ¬ (w1.user_id = w2.user_id ∧ w1.type = WalletType.PRIMARY ∧
       w2.type = WalletType.PRIMARY ∧ w1.status = WalletStatus.ACTIVE ∧
       w2.status = WalletStatus.ACTIVE)

instance (s : DBState) : Decidable (AtMostOneActivePrimary s) := by
  unfold AtMostOneActivePrimary
  infer_instance

/-- A sequence of `create_wallet` calls (user, request body, organization),
keeping each call's committed state. -/
def runWalletCreates (s : DBState)
    (ops : List (Nat × WalletCreate × Nat)) : DBState :=
  ops.foldl (fun st op => (create_wallet st op.1 op.2.1 op.2.2).1) s

/-- One `create_wallet` call preserves the at-most-one-ACTIVE-PRIMARY
invariant: a PRIMARY request for a user who already has an ACTIVE PRIMARY
wallet is rejected, and any inserted wallet could not collide. -/
theorem create_wallet_preserves_amoap (s : DBState) (user_id : Nat)
    (wd : WalletCreate) (org_id : Nat) (h : AtMostOneActivePrimary s) :
    AtMostOneActivePrimary (create_wallet s user_id wd org_id).1 := by
  unfold create_wallet
  split_ifs with hcond
  · exact h
  · unfold AtMostOneActivePrimary at h ⊢
    dsimp only
    rw [List.pairwise_append]
    refine ⟨h, List.pairwise_singleton _ _, ?_⟩
    intro a ha b hb
    rw [List.mem_singleton] at hb
    subst hb
    rintro ⟨hu, hpa, hpb, hsa, _⟩
    dsimp only at hu hpb
    exact hcond (by
      rw [Bool.and_eq_true]
      refine ⟨by simp [hpb], ?_⟩
      rw [List.any_eq_true]
      exact ⟨a, ha, by simp [hu, hpa, hsa]⟩)

/-- C9: `create_wallet` refuses — with an error and no state change — to
create a PRIMARY wallet for a user who already has an ACTIVE PRIMARY wallet,
and consequently any sequence of wallet creations preserves the
at-most-one-ACTIVE-PRIMARY-wallet-per-user invariant. -/
theorem claim_c9_primary_invariant :
    (∀ (s : DBState) (user_id : Nat) (wd : WalletCreate) (org_id : Nat),
      wd.type = WalletType.PRIMARY →
      (∃ w ∈ s.wallets, w.user_id = user_id ∧ w.type = WalletType.PRIMARY ∧
        w.status = WalletStatus.ACTIVE) →
      create_wallet s user_id wd org_id =
        (s, Except.error (ServiceError.httpException 400
          "User already has an active primary wallet"))) ∧
    (∀ (s : DBState) (ops : List (Nat × WalletCreate × Nat)),
      AtMostOneActivePrimary s →
      AtMostOneActivePrimary (runWalletCreates s ops)) := by
  constructor
  · rintro s user_id wd org_id hP ⟨w, hw, hu, hp, ha⟩
    unfold create_wallet
    have hcond : (wd.type == WalletType.PRIMARY &&
        s.wallets.any (fun w => w.user_id == user_id
          && w.type == WalletType.PRIMARY
          && w.status == WalletStatus.ACTIVE)) = true := by
      rw [Bool.and_eq_true]
      refine ⟨by simp [hP], ?_⟩
      rw [List.any_eq_true]
      exact ⟨w, hw, by simp [hu, hp, ha]⟩
    rw [if_pos hcond]
  · intro s ops h
    induction ops generalizing s with
    | nil => exact h
    | cons op rest ih =>
      exact ih _ (create_wallet_preserves_amoap s op.1 op.2.1 op.2.2 h)

/-- A PRIMARY-wallet creation request. -/
def wdPrimary : WalletCreate := ⟨"main", WalletType.PRIMARY, "INR"⟩

/-- C9 witness: user 11 already owns the ACTIVE PRIMARY wallet `wA`, so a
second PRIMARY request is refused; and a concrete creation sequence from the
empty state keeps the invariant. -/
theorem claim_c9_witness :
    create_wallet sAB 11 wdPrimary 7 =
      (sAB, Except.error (ServiceError.httpException 400
        "User already has an active primary wallet")) ∧
    AtMostOneActivePrimary
      (runWalletCreates sEmpty
        [(11, wdPrimary, 7), (11, wdPrimary, 7), (11, wdBonus, 7)]) :=
  ⟨claim_c9_primary_invariant.1 sAB 11 wdPrimary 7 (by decide)
      ⟨wA, by decide, by decide, by decide, by decide⟩,
    claim_c9_primary_invariant.2 sEmpty _ (by decide)⟩

/-! ## C7 — transaction listing -/

/-- A COMPLETED transaction with id 2, created at time 5. -/
def txnT1 : Transaction :=
  ⟨2, 7, 1, 2, 100, TransactionStatus.COMPLETED,
    TransactionType.INTERNAL_TRANSFER, none, none, 5, some 5⟩

/-- A COMPLETED transaction with id 1, created at time 5. -/
def txnT2 : Transaction :=
  ⟨1, 7, 1, 2, 200, TransactionStatus.COMPLETED,
    TransactionType.INTERNAL_TRANSFER, none, none, 5, some 5⟩

/-- A COMPLETED transaction with id 3, created at time 5. -/
def txnT3 : Transaction :=
  ⟨3, 7, 2, 1, 300, TransactionStatus.COMPLETED,
    TransactionType.INTERNAL_TRANSFER, none, none, 5, some 5⟩

/-- A state whose transaction table holds three rows with equal
`created_at`, stored in id order 2, 1, 3. -/
def sTie : DBState := ⟨[wA, wB], [txnT1, txnT2, txnT3], [], 30, 6⟩

/-- The empty filter (all optional filters absent, first page, default page
size 20). -/
def fAll : TransactionFilter := ⟨none, none, none, none, none, 1, 20⟩

/-- C7 counterexample: the claim states the listing is ordered by
`created_at` descending with ties broken by id.  The query orders only by
`created_at` descending; rows with equal `created_at` keep their storage
order, so the returned order 2, 1, 3 is sorted neither by ascending nor by
descending id within the tie. -/
theorem claim_c7_counterexample :
    ((get_transactions sTie 7 fAll).1.map Transaction.id = [2, 1, 3]) ∧
    (∀ t ∈ (get_transactions sTie 7 fAll).1, t.created_at = 5) ∧
    ¬ List.Pairwise (fun a b : Transaction =>
        b.created_at < a.created_at ∨
          (a.created_at = b.created_at ∧ a.id < b.id))
      (get_transactions sTie 7 fAll).1 ∧
    ¬ List.Pairwise (fun a b : Transaction =>
        b.created_at < a.created_at ∨
          (a.created_at = b.created_at ∧ b.id < a.id))
      (get_transactions sTie 7 fAll).1 := by
  decide

/-- C7 (amended): `get_transactions` returns only transactions of the given
organization matching every supplied filter (for a wallet filter, exactly
those where the wallet is sender or receiver), ordered by `created_at`
descending; ties in `created_at` are NOT broken by id but follow the
storage order of the result set.  The reported total counts the whole
filtered set, and when the first page is large enough the returned page is
exactly the filtered set. -/
theorem claim_c7_amended (s : DBState) (org_id : Nat)
    (filters : TransactionFilter) :
    (∀ t ∈ (get_transactions s org_id filters).1,
      t.org_id = org_id ∧ matchesFilters org_id filters t = true) ∧
    (∀ t ∈ (get_transactions s org_id filters).1, ∀ wid : Nat,
      filters.wallet_id = some wid →
      (t.sender_wallet_id = wid ∨ t.receiver_wallet_id = wid)) ∧
    List.Sorted createdDesc (get_transactions s org_id filters).1 ∧
    (get_transactions s org_id filters).2 =
      (s.transactions.filter (matchesFilters org_id filters)).length ∧
    (filters.page = 1 →
      (s.transactions.filter (matchesFilters org_id filters)).length ≤
        filters.page_size →
      ∀ t : Transaction, t ∈ (get_transactions s org_id filters).1 ↔
        (t ∈ s.transactions ∧ matchesFilters org_id filters t = true)) := by
  have hsubset : (get_transactions s org_id filters).1 ⊆
      s.transactions.filter (matchesFilters org_id filters) := by
    intro t ht
    unfold get_transactions at ht
    dsimp only at ht
    have h1 := List.take_subset _ _ ht
    have h2 := List.drop_subset _ _ h1
    exact (List.perm_insertionSort createdDesc _).subset h2
  refine ⟨?_, ?_, ?_, rfl, ?_⟩
  · intro t ht
    have hf := List.mem_filter.mp (hsubset ht)
    refine ⟨?_, hf.2⟩
    have hm := hf.2
    unfold matchesFilters at hm
    simp only [Bool.and_eq_true, beq_iff_eq] at hm
    exact hm.1.1.1.1.1
  · intro t ht wid hwid
    have hf := List.mem_filter.mp (hsubset ht)
    have hm := hf.2
    unfold matchesFilters at hm
    rw [hwid] at hm
    simp only [Bool.and_eq_true, Bool.or_eq_true, beq_iff_eq] at hm
    exact hm.2
  · unfold get_transactions
    dsimp only
    have hsorted := List.sorted_insertionSort createdDesc
      (s.transactions.filter (matchesFilters org_id filters))
    exact hsorted.sublist
      ((List.take_sublist _ _).trans (List.drop_sublist _ _))
  · intro hpage hlen t
    unfold get_transactions
    dsimp only
    rw [hpage]
    simp only [Nat.sub_self, Nat.zero_mul, List.drop_zero]
    rw [List.take_of_length_le]
    · rw [(List.perm_insertionSort createdDesc _).mem_iff, List.mem_filter]
    · rw [(List.perm_insertionSort createdDesc _).length_eq]
      exact hlen

/-- C7 witness: the amended claim applied at the concrete tied state — the
first page being large enough, membership in the result is exactly
membership in the filtered transaction table. -/
theorem claim_c7_witness :
    txnT2 ∈ (get_transactions sTie 7 fAll).1 ↔
      (txnT2 ∈ sTie.transactions ∧ matchesFilters 7 fAll txnT2 = true) :=
  (claim_c7_amended sTie 7 fAll).2.2.2.2 (by decide) (by decide) txnT2

/-! ## Reachable states and the ledger/balance invariants (C3, C8) -/

/-- Boolean double-entry check: the entries referencing a transaction are
exactly a DEBIT on the sender for minus the amount followed by a CREDIT on
the receiver for plus the amount. -/
def doubleEntryCheck (es : List LedgerEntry) (t : Transaction) : Bool :=
  match entriesForIn es t.id with
  | [e1, e2] =>
    e1.type == EntryType.DEBIT && e1.wallet_id == t.sender_wallet_id &&
    e1.amount == -t.amount && e2.type == EntryType.CREDIT &&
    e2.wallet_id == t.receiver_wallet_id && e2.amount == t.amount
  | _ => false

/-- Unpacking a successful double-entry check. -/
theorem doubleEntryCheck_elim {es : List LedgerEntry} {t : Transaction}
    (h : doubleEntryCheck es t = true) :
    ∃ e1 e2 : LedgerEntry, entriesForIn es t.id = [e1, e2] ∧
      e1.type = EntryType.DEBIT ∧ e1.wallet_id = t.sender_wallet_id ∧
      e1.amount = -t.amount ∧ e2.type = EntryType.CREDIT ∧
      e2.wallet_id = t.receiver_wallet_id ∧ e2.amount = t.amount ∧
      e1.amount + e2.amount = 0 := by
  unfold doubleEntryCheck at h
  rcases hE : entriesForIn es t.id with _ | ⟨e1, rest⟩
  · rw [hE] at h
    cases h
  · rcases rest with _ | ⟨e2, rest2⟩
    · rw [hE] at h
      cases h
    · rcases rest2 with _ | ⟨e3, rest3⟩
      · rw [hE] at h
        simp only [Bool.and_eq_true, beq_iff_eq] at h
        obtain ⟨⟨⟨⟨⟨h1, h2⟩, h3⟩, h4⟩, h5⟩, h6⟩ := h
        refine ⟨e1, e2, rfl, h1, h2, h3, h4, h5, h6, ?_⟩
        rw [h3, h6]
        ring
      · rw [hE] at h
        cases h

/-- The check is insensitive to table changes that leave the transaction's
entries alone. -/
theorem doubleEntryCheck_congr {es es' : List LedgerEntry} {t : Transaction}
    (h : entriesForIn es t.id = entriesForIn es' t.id) :
    doubleEntryCheck es t = doubleEntryCheck es' t := by
  unfold doubleEntryCheck
  rw [h]

/-- Well-formedness of a committed state: ids are below the fresh-id
counter, wallet ids are unique, balances are non-negative, every stored
transaction is COMPLETED (the synchronous path commits no other status) and
carries its double entry. -/
def GoodState (s : DBState) : Prop :=
  (∀ w ∈ s.wallets, w.id < s.nextId) ∧
  (∀ t ∈ s.transactions, t.id < s.nextId) ∧
  (∀ e ∈ s.ledger_entries, e.transaction_id < s.nextId) ∧
  (s.wallets.map Wallet.id).Nodup ∧
  (∀ w ∈ s.wallets, 0 ≤ w.balance) ∧
  (∀ t ∈ s.transactions, t.status = TransactionStatus.COMPLETED) ∧
  (∀ t ∈ s.transactions, doubleEntryCheck s.ledger_entries t = true)

instance (s : DBState) : Decidable (GoodState s) := by
  unfold GoodState
  infer_instance

/-- One step of the exposed API surface: the clock advancing, a wallet
creation attempt, a validated transfer attempt, or a cancel attempt — each
attempt's committed state, whether it succeeded or rolled back. -/
inductive Step : DBState → DBState → Prop
  | tick (s : DBState) : Step s { s with now := s.now + 1 }
  | wallet_create (s : DBState) (user_id : Nat) (wd : WalletCreate)
      (org_id : Nat) : Step s (create_wallet s user_id wd org_id).1
  | transfer (s : DBState) (raw : TransactionCreate) (org_id : Nat) :
      Step s (execute_transfer s raw org_id).1
  | cancel (s : DBState) (transaction_id org_id : Nat) :
      Step s (cancel_transaction s transaction_id org_id).1

/-- States reachable from a starting state through API steps. -/
inductive ReachableFrom (s₀ : DBState) : DBState → Prop
  | refl : ReachableFrom s₀ s₀
  | step {s s' : DBState} : ReachableFrom s₀ s → Step s s' →
      ReachableFrom s₀ s'

/-- Membership in a balance-mutated table. -/
theorem mem_applyBalanceDelta_elim {ws : List Wallet} {wallet_id : Nat}
    {delta : Int} {w' : Wallet}
    (h : w' ∈ applyBalanceDelta ws wallet_id delta) :
    ∃ w ∈ ws, w' =
      (if w.id == wallet_id then { w with balance := w.balance + delta }
       else w) := by
  unfold applyBalanceDelta at h
  obtain ⟨w, hw, hmap⟩ := List.mem_map.mp h
  exact ⟨w, hw, hmap.symm⟩

/-- The clock tick preserves well-formedness. -/
theorem goodState_tick {s : DBState} (h : GoodState s) :
    GoodState { s with now := s.now + 1 } := h

/-- Wallet creation preserves well-formedness. -/
theorem goodState_create_wallet {s : DBState} (h : GoodState s)
    (user_id : Nat) (wd : WalletCreate) (org_id : Nat) :
    GoodState (create_wallet s user_id wd org_id).1 := by
  obtain ⟨hw, htx, he, hnd, hnn, hc, hd⟩ := h
  unfold create_wallet
  split_ifs with hcond
  · exact ⟨hw, htx, he, hnd, hnn, hc, hd⟩
  · dsimp only
    unfold GoodState
    dsimp only
    refine ⟨?_, ?_, ?_, ?_, ?_, hc, hd⟩
    · intro w' hw'
      rcases List.mem_append.mp hw' with h1 | h1
      · have := hw w' h1
        omega
      · rw [List.mem_singleton] at h1
        subst h1
        show s.nextId < s.nextId + 1
        omega
    · intro t' ht'
      have := htx t' ht'
      omega
    · intro e' he'
      have := he e' he'
      omega
    · rw [List.map_append]
      refine hnd.append (List.nodup_singleton _) ?_
      intro a ha hb
      rw [List.map_singleton, List.mem_singleton] at hb
      subst hb
      obtain ⟨w0, hw0, hid⟩ := List.mem_map.mp ha
      have hid2 : w0.id = s.nextId := hid
      have := hw w0 hw0
      omega
    · intro w' hw'
      rcases List.mem_append.mp hw' with h1 | h1
      · exact hnn w' h1
      · rw [List.mem_singleton] at h1
        subst h1
        show (0 : Int) ≤ 0
        omega

/-- When every stored transaction is COMPLETED (as in any state reachable
through the synchronous path), a cancel attempt never changes the state:
it either finds nothing (404) or refuses the non-PENDING status (400). -/
theorem cancel_state_of_completed {s : DBState}
    (hc : ∀ t ∈ s.transactions, t.status = TransactionStatus.COMPLETED)
    (transaction_id org_id : Nat) :
    (cancel_transaction s transaction_id org_id).1 = s := by
  unfold cancel_transaction
  rcases hT : get_transaction_by_id s transaction_id org_id with _ | t
  · rfl
  · dsimp only
    have hT' : s.transactions.find?
        (fun u => u.id == transaction_id && u.org_id == org_id) = some t := hT
    have hst := hc t (List.mem_of_find?_eq_some hT')
    rw [if_pos (by rw [hst]; exact fun hcontra => TransactionStatus.noConfusion hcontra)]

/-- Cancel attempts preserve well-formedness. -/
theorem goodState_cancel {s : DBState} (h : GoodState s)
    (transaction_id org_id : Nat) :
    GoodState (cancel_transaction s transaction_id org_id).1 := by
  rw [cancel_state_of_completed h.2.2.2.2.2.1 transaction_id org_id]
  exact h

/-- Transfer attempts preserve well-formedness. -/
theorem goodState_transfer {s : DBState} (h : GoodState s)
    (raw : TransactionCreate) (org_id : Nat) :
    GoodState (execute_transfer s raw org_id).1 := by
  rcases hres : (execute_transfer s raw org_id).2 with e | t
  · rw [execute_transfer_error_state s raw org_id hres]
    exact h
  · obtain ⟨hpos, heq⟩ := execute_transfer_ok_elim s raw org_id hres
    rw [heq] at hres ⊢
    obtain ⟨sw, rw_, hS, hR, hsA, hrA, hbal, hok, ht⟩ :=
      create_internal_transfer_ok_elim s raw org_id hres
    rw [hok]
    obtain ⟨hw, htx, he, hnd, hnn, hc, hd⟩ := h
    obtain ⟨hswm, hswid, hsworg⟩ := get_wallet_by_id_some hS
    unfold transferState GoodState
    dsimp only
    refine ⟨?_, ?_, ?_, ?_, ?_, ?_, ?_⟩
    · intro w' hw'
      have hmm : w'.id ∈ (applyBalanceDelta
          (applyBalanceDelta s.wallets raw.sender_wallet_id (-raw.amount))
          raw.receiver_wallet_id raw.amount).map Wallet.id :=
        List.mem_map_of_mem Wallet.id hw'
      rw [applyBalanceDelta_map_id, applyBalanceDelta_map_id] at hmm
      obtain ⟨w0, hw0, hid⟩ := List.mem_map.mp hmm
      have := hw w0 hw0
      omega
    · intro t' ht'
      rcases List.mem_append.mp ht' with h1 | h1
      · have := htx t' h1
        omega
      · rw [List.mem_singleton] at h1
        subst h1
        show s.nextId < s.nextId + 3
        omega
    · intro e' he'
      rcases List.mem_append.mp he' with h1 | h1
      · have := he e' h1
        omega
      · rcases List.mem_cons.mp h1 with h2 | h2
        · subst h2
          show s.nextId < s.nextId + 3
          omega
        · rw [List.mem_singleton] at h2
          subst h2
          show s.nextId < s.nextId + 3
          omega
    · rw [applyBalanceDelta_map_id, applyBalanceDelta_map_id]
      exact hnd
    · intro w' hw'
      obtain ⟨w1, hw1, hw'eq⟩ := mem_applyBalanceDelta_elim hw'
      obtain ⟨w0, hw0, hw1eq⟩ := mem_applyBalanceDelta_elim hw1
      have hw0nn := hnn w0 hw0
      by_cases h0s : w0.id = raw.sender_wallet_id
      · have hw0sw : w0 = sw :=
          wallet_eq_of_ids_nodup hnd hw0 hswm (by rw [h0s, hswid])
        have hbal0 : raw.amount ≤ w0.balance := by
          rw [hw0sw]
          exact hbal
        rw [if_pos (by simpa using h0s)] at hw1eq
        rw [hw1eq] at hw'eq
        by_cases h0r : w0.id = raw.receiver_wallet_id
        · rw [if_pos (by simpa using h0r)] at hw'eq
          rw [hw'eq]
          dsimp only
          omega
        · rw [if_neg (by simpa using h0r)] at hw'eq
          rw [hw'eq]
          dsimp only
          omega
      · rw [if_neg (by simpa using h0s)] at hw1eq
        rw [hw1eq] at hw'eq
        by_cases h0r : w0.id = raw.receiver_wallet_id
        · rw [if_pos (by simpa using h0r)] at hw'eq
          rw [hw'eq]
          dsimp only
          omega
        · rw [if_neg (by simpa using h0r)] at hw'eq
          rw [hw'eq]
          exact hw0nn
    · intro t' ht'
      rcases List.mem_append.mp ht' with h1 | h1
      · exact hc t' h1
      · rw [List.mem_singleton] at h1
        subst h1
        rfl
    · intro t' ht'
      rcases List.mem_append.mp ht' with h1 | h1
      · have hne1 : s.nextId ≠ t'.id := (Nat.ne_of_lt (htx t' h1)).symm
        have hsame : entriesForIn
            (s.ledger_entries ++ [transferDebit s raw, transferCredit s raw])
            t'.id = entriesForIn s.ledger_entries t'.id := by
          rw [entriesForIn_append]
          have hnil : entriesForIn
              [transferDebit s raw, transferCredit s raw] t'.id = [] := by
            simp [entriesForIn, transferDebit, transferCredit, hne1]
          rw [hnil, List.append_nil]
        rw [doubleEntryCheck_congr hsame]
        exact hd t' h1
      · rw [List.mem_singleton] at h1
        subst h1
        unfold doubleEntryCheck
        have hid : (transferTxn s raw org_id).id = s.nextId := rfl
        rw [hid, entriesForIn_append,
          entriesForIn_eq_nil_of_lt s.ledger_entries s.nextId he,
          List.nil_append]
        have hpair : entriesForIn
            [transferDebit s raw, transferCredit s raw] s.nextId =
            [transferDebit s raw, transferCredit s raw] := by
          simp [entriesForIn, transferDebit, transferCredit]
        rw [hpair]
        simp [transferDebit, transferCredit, transferTxn]

/-- Every state reachable from a well-formed state through the API surface
is well-formed. -/
theorem reachable_good {s₀ s : DBState} (h₀ : GoodState s₀)
    (hr : ReachableFrom s₀ s) : GoodState s := by
  induction hr with
  | refl => exact h₀
  | step hrr hstep ih =>
    cases hstep with
    | tick => exact goodState_tick ih
    | wallet_create user_id wd org_id =>
      exact goodState_create_wallet ih user_id wd org_id
    | transfer raw org_id => exact goodState_transfer ih raw org_id
    | cancel transaction_id org_id =>
      exact goodState_cancel ih transaction_id org_id

/-- The concrete transfer `execute_transfer sAB tdAB 7` commits `sABdone`,
so `sABdone` is reachable from the two-wallet state. -/
theorem reachable_sAB_sABdone : ReachableFrom sAB sABdone := by
  have h := ReachableFrom.step ReachableFrom.refl (Step.transfer sAB tdAB 7)
  rwa [(by decide : (execute_transfer sAB tdAB 7).1 = sABdone)] at h

/-! ## C3 — double-entry invariant -/

/-- C3: in any state reachable (through the API operations) from a
well-formed state, every COMPLETED transaction has exactly two ledger
entries referencing it: first a DEBIT on the sender wallet for minus the
amount, then a CREDIT on the receiver wallet for plus the amount, so the
two amounts sum to zero. -/
theorem claim_c3_double_entry (s₀ s : DBState) (h₀ : GoodState s₀)
    (hr : ReachableFrom s₀ s) :
    ∀ t ∈ s.transactions, t.status = TransactionStatus.COMPLETED →
      ∃ e1 e2 : LedgerEntry, entriesFor s t.id = [e1, e2] ∧
        e1.type = EntryType.DEBIT ∧ e1.wallet_id = t.sender_wallet_id ∧
        e1.amount = -t.amount ∧ e2.type = EntryType.CREDIT ∧
        e2.wallet_id = t.receiver_wallet_id ∧ e2.amount = t.amount ∧
        e1.amount + e2.amount = 0 := by
  intro t htm _
  exact doubleEntryCheck_elim ((reachable_good h₀ hr).2.2.2.2.2.2 t htm)

/-- C3 witness: the invariant read off the committed state of the concrete
50.00 transfer. -/
theorem claim_c3_witness :
    ∃ e1 e2 : LedgerEntry, entriesFor sABdone txnAB.id = [e1, e2] ∧
      e1.type = EntryType.DEBIT ∧ e1.wallet_id = txnAB.sender_wallet_id ∧
      e1.amount = -txnAB.amount ∧ e2.type = EntryType.CREDIT ∧
      e2.wallet_id = txnAB.receiver_wallet_id ∧ e2.amount = txnAB.amount ∧
      e1.amount + e2.amount = 0 :=
  claim_c3_double_entry sAB sABdone (by decide) reachable_sAB_sABdone
    txnAB (by decide) (by decide)

/-! ## C8 — balance updates and non-negativity -/

/-- C8 counterexample: the claim states `update_wallet_balance` rejects any
update whose resulting balance would be negative.  The function applies the
delta unconditionally: draining 10.00 from wallet 2 (balance 0.00) is
accepted and commits a negative balance. -/
theorem claim_c8_counterexample :
    (update_wallet_balance sAB 2 (-1000)).2 = Except.ok () ∧
    walletBalance (update_wallet_balance sAB 2 (-1000)).1 2 =
      some (-1000) := by
  decide

/-- C8 (amended): `update_wallet_balance` performs no negativity check — it
adds the delta to any existing wallet's balance unconditionally, possibly
driving it negative.  The non-negative-balance invariant nevertheless holds
in every state reachable through the API operations, because the transfer
engine pre-checks the sender balance and `update_wallet_balance` has no
caller. -/
theorem claim_c8_amended :
    (∀ (s : DBState) (wallet_id : Nat) (amount b : Int),
      walletBalance s wallet_id = some b →
      (update_wallet_balance s wallet_id amount).2 = Except.ok () ∧
      walletBalance (update_wallet_balance s wallet_id amount).1 wallet_id =
        some (b + amount)) ∧
    (∀ s₀ s : DBState, GoodState s₀ → ReachableFrom s₀ s →
      ∀ w ∈ s.wallets, 0 ≤ w.balance) := by
  constructor
  · intro s wallet_id amount b hb
    unfold walletBalance at hb
    rcases hf : s.wallets.find? (fun w => w.id == wallet_id) with _ | w
    · rw [hf] at hb
      cases hb
    · rw [hf] at hb
      simp only [Option.map_some'] at hb
      have hwb : w.balance = b := Option.some.inj hb
      unfold update_wallet_balance
      rw [hf]
      refine ⟨rfl, ?_⟩
      unfold walletBalance
      dsimp only
      rw [find?_applyBalanceDelta_self, hf]
      simp [hwb]
  · intro s₀ s h₀ hr
    exact (reachable_good h₀ hr).2.2.2.2.1

/-- C8 witness: the amended claim at concrete inputs — an unconditional
delta applied to wallet 1, and non-negativity of every balance in the
committed state of the concrete transfer. -/
theorem claim_c8_witness :
    ((update_wallet_balance sAB 1 2500).2 = Except.ok () ∧
      walletBalance (update_wallet_balance sAB 1 2500).1 1 =
        some (10000 + 2500)) ∧
    ∀ w ∈ sABdone.wallets, 0 ≤ w.balance :=
  ⟨claim_c8_amended.1 sAB 1 2500 10000 (by decide),
    claim_c8_amended.2 sAB sABdone (by decide) reachable_sAB_sABdone⟩
